import Mathlib

/-!
Verification development for the Finzo recommendation engine
(`FinzoBackend/app/recommendation_engine.py` and the profile-normalization
glue in `FinzoBackend/app/recommendation_system.py`).

The Python code is shallowly embedded: Python numbers are modelled by `ℚ`
(exact arithmetic; IEEE float rounding of the original is not modelled),
dicts of heterogeneous values by structures whose fields are `PyVal`, and
dict iteration by association lists in insertion order.  `round(x, n)` is
modelled as round-half-up on rationals (Python uses round-half-even on
binary floats; no statement below depends on a tie).
-/

/-- A Python value as it appears in the market-data dicts: `pynone` covers
both an absent key and a key stored as `None` (the engine treats the two
alike everywhere it matters: its guards are `get(k) is not None`), `num`
is an `int`/`float`, `str` a string. -/
inductive PyVal where
  | pynone : PyVal
  | num : ℚ → PyVal
  | str : String → PyVal
deriving DecidableEq, Repr

/-- Numeric value of one decimal digit character. -/
def charDigitVal (c : Char) : Option ℕ :=
  if c.isDigit then some (c.toNat - 48) else none

/-- Parse a nonempty all-digit character list as a natural number. -/
def digitsVal : List Char → Option ℕ
  | [] => none
  | [c] => charDigitVal c
  | c :: rest => do
      let d ← charDigitVal c
      let r ← digitsVal rest
      pure (d * 10 ^ rest.length + r)

/-- Value of a digit list read as the fractional part after a decimal
point (e.g. `['2','5']` is `1/4`). -/
def fracVal (l : List Char) : Option ℚ := do
  let n ← digitsVal l
  pure ((n : ℚ) / 10 ^ l.length)

/-- Python `float(s)` on a decimal literal: optional sign, then digits
with an optional decimal point; at least one digit overall (`"1."` and
`".5"` parse, `"."` does not).  Exponents, `inf`/`nan` and surrounding
whitespace are not modelled; no claim depends on them. -/
def parseFloatStr (s : String) : Option ℚ :=
  let core : List Char → Option ℚ := fun cs =>
    match (cs.splitOn '.') with
    | [intPart] => do
        let n ← digitsVal intPart
        pure (n : ℚ)
    | [intPart, fracPart] =>
        match intPart, fracPart with
        | [], [] => none
        | [], f => fracVal f
        | i, [] => do
            let n ← digitsVal i
            pure (n : ℚ)
        | i, f => do
            let n ← digitsVal i
            let q ← fracVal f
            pure ((n : ℚ) + q)
    | _ => none
  match s.data with
  | '-' :: rest => (core rest).map (fun q => -q)
  | '+' :: rest => core rest
  | cs => core cs

/-- Python `int(s)` on a decimal literal: optional sign then digits only. -/
def parseIntStr (s : String) : Option ℤ :=
  match s.data with
  | '-' :: rest => (digitsVal rest).map (fun n => -(n : ℤ))
  | '+' :: rest => (digitsVal rest).map (fun n => (n : ℤ))
  | cs => (digitsVal cs).map (fun n => (n : ℤ))

/-- Python `float(v)`: numbers pass through, strings are parsed, `None`
raises (`none` here means the call raises). -/
def pyFloat : PyVal → Option ℚ
  | .pynone => none
  | .num q => some q
  | .str s => parseFloatStr s

/-- Python truthiness of a value (`if not current_price: ...`). -/
def pyTruthy : PyVal → Bool
  | .pynone => false
  | .num q => q ≠ 0
  | .str s => s ≠ ""

/-- Python `"needle" in haystack` substring test (for nonempty needles). -/
def strContains (hay needle : String) : Bool :=
  (hay.splitOn needle).length > 1

/-- Round-half-up to 2 decimal places, modelling Python `round(x, 2)`. -/
def round2 (x : ℚ) : ℚ := (round (x * 100) : ℤ) / 100

/-- Round-half-up to 1 decimal place, modelling Python `round(x, 1)`. -/
def round1 (x : ℚ) : ℚ := (round (x * 10) : ℤ) / 10

/-- Round-half-up to the nearest hundred, modelling Python `round(x, -2)`. -/
def round100 (x : ℚ) : ℚ := (round (x / 100) : ℤ) * 100

/-- The canonical financial profile consumed by the engine
(`recommendation_engine.py` reads exactly these keys). -/
structure Profile where
  monthly_income : ℚ
  monthly_expense : ℚ
  current_savings : ℚ
  existing_investments : ℚ
  current_debt : ℚ
  investment_horizon : ℤ
  risk_tolerance : ℤ
deriving DecidableEq, Repr

/-- Result of `calculate_investment_capacity`.  `debt_to_income_ratio`
is `none` when the Python code stores `float('inf')` (zero income). -/
structure Capacity where
  monthly_surplus : ℚ
  debt_to_income_ratio : Option ℚ
  net_worth : ℚ
  emergency_fund_requirement : ℚ
  current_savings_surplus : ℚ
  recommended_monthly_investment : ℚ
  lump_sum_investment_capacity : ℚ
  debt_payment_recommendation : ℚ
deriving DecidableEq, Repr

/-- The branch test `debt_to_income_ratio > 0.5` (infinity compares
greater). -/
def dtiGtHalf : Option ℚ → Bool
  | some r => r > 1 / 2
  | none => true

/-- `calculate_investment_capacity` from `recommendation_engine.py`
lines 18-75, field by field. -/
def calculate_investment_capacity (p : Profile) : Capacity :=
  let monthly_surplus := p.monthly_income - p.monthly_expense
  let dti : Option ℚ :=
    if p.monthly_income > 0 then some (p.current_debt / p.monthly_income) else none
  let net_worth := p.current_savings + p.existing_investments - p.current_debt
  let emergency := p.monthly_expense * 6
  let savings_surplus := max 0 (p.current_savings - emergency)
  let rec_monthly := if dtiGtHalf dti then monthly_surplus * (3 / 10)
    else monthly_surplus * (7 / 10)
  let debt_payment := if dtiGtHalf dti then monthly_surplus * (7 / 10)
    else monthly_surplus * (3 / 10)
  let lump := savings_surplus * (8 / 10)
  { monthly_surplus := monthly_surplus
    debt_to_income_ratio := dti
    net_worth := net_worth
    emergency_fund_requirement := emergency
    current_savings_surplus := savings_surplus
    recommended_monthly_investment := max 0 rec_monthly
    lump_sum_investment_capacity := max 0 lump
    debt_payment_recommendation := max 0 debt_payment }

/-- Result of `determine_asset_allocation` (the returned dict, with the
two nested breakdown dicts flattened into fields). -/
structure Allocation where
  equity : ℚ
  large_cap : ℚ
  mid_cap : ℚ
  small_cap : ℚ
  debt : ℚ
  govt_bonds : ℚ
  corporate_bonds : ℚ
  commodities : ℚ
deriving DecidableEq, Repr

/-- Equity allocation before renormalization and rounding
(`determine_asset_allocation` lines 94-105). -/
def equityRaw (p : Profile) : ℚ :=
  let equity_base := min (30 + (p.risk_tolerance : ℚ) * 5) 90
  let horizon_factor := min ((p.investment_horizon : ℚ) / 2) 5
  let e := min (equity_base + horizon_factor * 2) 90
  if (p.investment_horizon : ℚ) < 3 then max (e * (7 / 10)) 20 else e

/-- Debt allocation before renormalization and rounding: on every path
the code sets it to `100 - equity_allocation - 5` (line 101, recomputed
identically at line 106 in the short-horizon branch). -/
def debtRaw (p : Profile) : ℚ := 100 - equityRaw p - 5

/-- Commodity allocation before renormalization: always 5 (line 109). -/
def commodityRaw : ℚ := 5

/-- `determine_asset_allocation` from `recommendation_engine.py`
lines 77-139: raw allocations, proportional renormalization to a total
of 100, sub-splits, and rounding of every returned percentage. -/
def determine_asset_allocation (p : Profile) : Allocation :=
  let e := equityRaw p
  let d := debtRaw p
  let c := commodityRaw
  let total := e + d + c
  let e := e / total * 100
  let d := d / total * 100
  let c := c / total * 100
  let rt : ℚ := (p.risk_tolerance : ℚ)
  { equity := round2 e
    large_cap := round2 (e * (7 / 10 - rt / 30))
    mid_cap := round2 (e * (2 / 10 + rt / 60))
    small_cap := round2 (e * (1 / 10 + rt / 60))
    debt := round2 d
    govt_bonds := round2 (d * (4 / 10))
    corporate_bonds := round2 (d * (6 / 10))
    commodities := round2 c }

/-- A raw risk-tolerance input to profile normalization: either a string
or a number (already an `int` once Python's `int()` is applied). -/
inductive RiskInput where
  | txt : String → RiskInput
  | num : ℤ → RiskInput
deriving DecidableEq, Repr

/-- The risk-tolerance normalization in
`recommendation_system.generate_stock_recommendations` (lines 301-308):
text values map through a lowercase keyword table with default 5, numeric
values pass through `int()` unchanged — no clamping on this path. -/
def riskValueOfInput : RiskInput → ℤ
  | .num n => n
  | .txt s =>
      let l := s.toLower
      if l = "low" ∨ l = "conservative" then 3
      else if l = "medium" ∨ l = "moderate" then 5
      else if l = "high" ∨ l = "aggressive" then 8
      else 5

/-- The risk-tolerance clamp in
`recommendation_system.get_user_financial_profile` (lines 62-66): an
integer outside [1,10] is replaced by `max(1, min(r, 10))`. -/
def clampRiskProfile (r : ℤ) : ℤ :=
  if r < 1 ∨ r > 10 then max 1 (min r 10) else r

/-- Stable insertion of `x` into a list sorted descending by `f`: `x`
goes before the first element not strictly greater, so earlier elements
keep priority on ties — the behaviour of Python's stable
`sorted(..., reverse=True)`. -/
def insertDescBy {α : Type} (f : α → ℚ) (x : α) : List α → List α
  | [] => [x]
  | y :: ys => if f y > f x then y :: insertDescBy f x ys else x :: y :: ys

/-- Stable descending sort by `f`, modelling
`sorted(values, key=score, reverse=True)`. -/
def sortByDesc {α : Type} (f : α → ℚ) (l : List α) : List α :=
  l.foldr (insertDescBy f) []

/-- A field passes the guard `fund.get(k) is not None and fund.get(k) != ""`. -/
def fieldPresent (v : PyVal) : Bool := v ≠ PyVal.pynone ∧ v ≠ PyVal.str ""

/-- Per-symbol fundamental record (`stock_data["fundamental"][symbol]`).
`name` and `sector` are used only as strings by the engine and are
modelled as optional strings; a missing entry is `none`. -/
structure FundRecord where
  name : Option String := none
  sector : Option String := none
  pe_ratio : PyVal := .pynone
  industry_pe : PyVal := .pynone
  roe : PyVal := .pynone
  debt_to_equity : PyVal := .pynone
  eps : PyVal := .pynone
  dividend_yield : PyVal := .pynone
  profit_growth : PyVal := .pynone
  market_cap : PyVal := .pynone
deriving DecidableEq, Repr

/-- Per-symbol technical record (`stock_data["technical"][symbol]`). -/
structure TechRecord where
  current_price : PyVal := .pynone
  price_to_ma50 : PyVal := .pynone
  price_to_ma200 : PyVal := .pynone
  rsi : PyVal := .pynone
  macd : PyVal := .pynone
  macd_signal : PyVal := .pynone
  macd_histogram : PyVal := .pynone
  macd_histogram_prev : PyVal := .pynone
  volume_change : PyVal := .pynone
  day_change : PyVal := .pynone
  volatility : PyVal := .pynone
deriving DecidableEq, Repr

/-- PE-ratio signal (lines 186-200).  Reason strings throughout this file
keep the static text of the source; the interpolated numbers of the
f-strings are not reproduced. -/
def peScore (v : PyVal) : ℚ × List String :=
  if fieldPresent v then
    match pyFloat v with
    | some pe =>
        if 5 < pe ∧ pe < 20 then (4, ["Attractive P/E ratio"])
        else if 20 ≤ pe ∧ pe < 30 then (2, ["Reasonable P/E ratio"])
        else if 30 ≤ pe ∧ pe < 40 then (1, ["P/E ratio"])
        else (0, [])
    | none => (0, [])
  else (0, [])

/-- Industry-PE comparison signal (lines 203-214): guarded only by
`is not None` on both fields; both `float()` calls sit in one `try`, so
either parse failure skips the whole block. -/
def industryPeScore (pe ipe : PyVal) : ℚ × List String :=
  if pe ≠ PyVal.pynone ∧ ipe ≠ PyVal.pynone then
    match pyFloat pe, pyFloat ipe with
    | some p, some i =>
        if p < i * (8 / 10) then (4, ["P/E ratio significantly below industry average"])
        else if p < i then (2, ["P/E ratio below industry average"])
        else (0, [])
    | _, _ => (0, [])
  else (0, [])

/-- ROE signal (lines 217-233). -/
def roeScore (v : PyVal) : ℚ × List String :=
  if fieldPresent v then
    match pyFloat v with
    | some roe =>
        if roe > 20 then (5, ["Excellent ROE"])
        else if roe > 15 then (4, ["Strong ROE"])
        else if roe > 10 then (3, ["Good ROE"])
        else if roe > 5 then (1, ["Positive ROE"])
        else (0, [])
    | none => (0, [])
  else (0, [])

/-- Debt-to-equity signal (lines 236-252). -/
def deScore (v : PyVal) : ℚ × List String :=
  if fieldPresent v then
    match pyFloat v with
    | some de =>
        if de < 3 / 10 then (4, ["Exceptionally low debt-to-equity ratio"])
        else if de < 6 / 10 then (3, ["Very low debt-to-equity ratio"])
        else if de < 1 then (2, ["Good debt-to-equity ratio"])
        else if de < 3 / 2 then (1, ["Reasonable debt-to-equity ratio"])
        else (0, [])
    | none => (0, [])
  else (0, [])

/-- EPS signal (lines 255-268). -/
def epsScore (v : PyVal) : ℚ × List String :=
  if fieldPresent v then
    match pyFloat v with
    | some eps =>
        if eps > 50 then (4, ["High EPS"])
        else if eps > 20 then (3, ["Good EPS"])
        else if eps > 10 then (2, ["Positive EPS"])
        else (0, [])
    | none => (0, [])
  else (0, [])

/-- Dividend-yield signal (lines 271-284). -/
def divYieldScore (v : PyVal) : ℚ × List String :=
  if fieldPresent v then
    match pyFloat v with
    | some dy =>
        if dy > 4 then (3, ["Excellent dividend yield"])
        else if dy > 2 then (2, ["Good dividend yield"])
        else if dy > 1 then (1, ["Positive dividend yield"])
        else (0, [])
    | none => (0, [])
  else (0, [])

/-- Profit-growth signal (lines 287-303). -/
def profitGrowthScore (v : PyVal) : ℚ × List String :=
  if fieldPresent v then
    match pyFloat v with
    | some g =>
        if g > 30 then (5, ["Exceptional profit growth"])
        else if g > 20 then (4, ["Strong profit growth"])
        else if g > 10 then (3, ["Good profit growth"])
        else if g > 5 then (1, ["Positive profit growth"])
        else (0, [])
    | none => (0, [])
  else (0, [])

/-- Market-cap signal (lines 306-332): categorizes by size in crores and
scores alignment with the user's risk tolerance; a parse failure leaves
the category "Unknown" with no points. -/
def marketCapScore (v : PyVal) (rt : ℤ) : ℚ × List String × String :=
  if fieldPresent v then
    match pyFloat v with
    | some mc =>
        let crores := mc / 10000000
        if crores > 50000 then
          (if rt ≤ 4 then (3, ["Large cap stock aligns with your lower risk profile"], "Large Cap")
           else (0, [], "Large Cap"))
        else if crores > 5000 then
          (if 4 < rt ∧ rt < 8 then (3, ["Mid cap stock aligns with your moderate risk profile"], "Mid Cap")
           else (0, [], "Mid Cap"))
        else
          (if rt ≥ 7 then (3, ["Small cap stock aligns with your higher risk profile"], "Small Cap")
           else (0, [], "Small Cap"))
    | none => (0, [], "Unknown")
  else (0, [], "Unknown")

/-- Sector-sentiment signal (lines 335-345): the sector name is looked
up in the sector-sentiment map and its `"sentiment"` value compared with
the strings "positive"/"neutral". -/
def sectorScore (sector : String) (sectorSent : List (String × PyVal)) : ℚ × List String :=
  match List.lookup sector sectorSent with
  | some v =>
      if v = PyVal.str "positive" then (2, ["Positive sentiment for sector"])
      else if v = PyVal.str "neutral" then (1, ["Neutral sentiment for sector"])
      else (0, [])
  | none => (0, [])

/-- Complete-data bonus (lines 348-350): +1 when `pe_ratio`, `roe`,
`debt_to_equity` and `eps` are all present and not `None` (an
unparsable string still counts as present here). -/
def completeDataScore (f : FundRecord) : ℚ × List String :=
  if f.pe_ratio ≠ PyVal.pynone ∧ f.roe ≠ PyVal.pynone ∧
      f.debt_to_equity ≠ PyVal.pynone ∧ f.eps ≠ PyVal.pynone then
    (1, ["Complete fundamental analysis available"])
  else (0, [])

/-- A candidate after the fundamental phase (`fundamental_scores[symbol]`). -/
structure FundScored where
  symbol : String
  name : String
  sector : String
  market_cap_category : String
  score : ℚ
  reasons : List String
deriving DecidableEq, Repr

/-- Fundamental score and reasons of one record, in the source's signal
order (PE, industry PE, ROE, D/E, EPS, dividend yield, profit growth,
market cap, sector sentiment, complete-data bonus). -/
def scoreFundamental (rt : ℤ) (sectorSent : List (String × PyVal))
    (symbol : String) (f : FundRecord) : FundScored :=
  let sector := f.sector.getD "Unknown"
  let p1 := peScore f.pe_ratio
  let p2 := industryPeScore f.pe_ratio f.industry_pe
  let p3 := roeScore f.roe
  let p4 := deScore f.debt_to_equity
  let p5 := epsScore f.eps
  let p6 := divYieldScore f.dividend_yield
  let p7 := profitGrowthScore f.profit_growth
  let p8 := marketCapScore f.market_cap rt
  let p9 := sectorScore sector sectorSent
  let p10 := completeDataScore f
  { symbol := symbol
    name := f.name.getD symbol
    sector := sector
    market_cap_category := p8.2.2
    score := p1.1 + p2.1 + p3.1 + p4.1 + p5.1 + p6.1 + p7.1 + p8.1 + p9.1 + p10.1
    reasons := p1.2 ++ p2.2 ++ p3.2 ++ p4.2 ++ p5.2 ++ p6.2 ++ p7.2 ++ p8.2.1 ++
      p9.2 ++ p10.2 }

/-- Fundamental phase of `recommend_stocks` (lines 165-367): every symbol
of the technical map that also has a fundamental record is scored; no
candidate is dropped by this phase, whatever its field values.  The
values appear in technical-map insertion order, as `fundamental_scores`
does in Python. -/
def fundamentalPhase (rt : ℤ) (technical : List (String × TechRecord))
    (fundamental : List (String × FundRecord))
    (sectorSent : List (String × PyVal)) : List FundScored :=
  technical.filterMap fun pr =>
    (List.lookup pr.1 fundamental).map (scoreFundamental rt sectorSent pr.1)

/-- `tech.get(k, 0) > 0` in Python: a missing key compares as `0 > 0`,
a number compares normally, a string raises (`none`). -/
def pyGtZero : PyVal → Option Bool
  | .pynone => some false
  | .num q => some (q > 0)
  | .str _ => none

/-- `tech.get(k, 0) < 0` in Python, same conventions as `pyGtZero`. -/
def pyLtZero : PyVal → Option Bool
  | .pynone => some false
  | .num q => some (q < 0)
  | .str _ => none

/-- One guarded technical signal: a missing field contributes nothing,
a present field must parse as a float — the whole technical block for
the symbol aborts (`none`) otherwise, because all of lines 391-513 sit
inside a single `try` whose handler drops the candidate. -/
def techSignal (v : PyVal) (tier : ℚ → ℚ × List String) : Option (ℚ × List String) :=
  if v = PyVal.pynone then some (0, [])
  else (pyFloat v).map tier

/-- MACD block of the technical phase (lines 442-460), with Python's
short-circuit evaluation order: the histogram default-0 comparisons can
raise only when they are actually evaluated. -/
def macdBlock (t : TechRecord) : Option (ℚ × List String) :=
  if t.macd = PyVal.pynone ∨ t.macd_signal = PyVal.pynone then some (0, [])
  else do
    let m ← pyFloat t.macd
    let s ← pyFloat t.macd_signal
    let first ←
      if m > 0 ∧ m > s then do
        let b ← pyGtZero t.macd_histogram
        pure (if b then ((3 : ℚ), ["Strong MACD bullish signal (positive and above signal line)"])
          else ((2 : ℚ), ["MACD above signal line (bullish)"]))
      else
        pure (if m > s then ((2 : ℚ), ["MACD above signal line (bullish)"])
          else ((-(1 / 2) : ℚ), ["MACD below signal line (bearish)"]))
    let b1 ← pyGtZero t.macd_histogram
    let cross ←
      if b1 then do
        let b2 ← pyLtZero t.macd_histogram_prev
        pure (if b2 then ((3 : ℚ), ["Recent MACD bullish crossover (strong buy signal)"])
          else ((0 : ℚ), []))
      else pure ((0 : ℚ), ([] : List String))
    pure (first.1 + cross.1, first.2 ++ cross.2)

/-- Technical additions for one symbol (lines 391-497): the sum of the
seven technical signals in source order, or `none` when any present
field fails to parse, in which case the candidate is dropped. -/
def techAdjust (rt : ℤ) (t : TechRecord) : Option (ℚ × List String) := do
  let s1 ← techSignal t.price_to_ma50 fun r =>
    if r > 11 / 10 then (3, ["Very strong bullish trend (price 10% above 50-day MA)"])
    else if r > 21 / 20 then (2, ["Strong bullish trend (price 5% above 50-day MA)"])
    else if r > 1 then (1, ["Price above 50-day moving average"])
    else (0, [])
  let s2 ← techSignal t.price_to_ma200 fun r =>
    if r > 6 / 5 then (4, ["Exceptional long-term uptrend (price 20% above 200-day MA)"])
    else if r > 11 / 10 then (3, ["Strong long-term uptrend (price 10% above 200-day MA)"])
    else if r > 1 then (2, ["Price above 200-day moving average (bullish)"])
    else (0, [])
  let s3 ← techSignal t.rsi fun r =>
    if 45 ≤ r ∧ r ≤ 55 then (2, ["RSI in optimal neutral zone"])
    else if 55 < r ∧ r < 65 then (3, ["RSI showing strength without overheating"])
    else if 65 ≤ r ∧ r < 70 then (1, ["RSI showing strength"])
    else if r ≥ 70 then (-1, ["RSI in overbought territory"])
    else if 30 < r ∧ r ≤ 40 then (1, ["RSI in potential accumulation zone"])
    else if r ≤ 30 then (1 / 2, ["RSI in oversold territory - potential bounce"])
    else (0, [])
  let s4 ← macdBlock t
  let s5 ← techSignal t.volume_change fun v =>
    if v > 2 then (2, ["Very high trading volume"])
    else if v > 3 / 2 then (1, ["Higher than average volume"])
    else (0, [])
  let s6 ← techSignal t.day_change fun d =>
    if d > 3 then (2, ["Strong positive momentum"])
    else if d > 1 then (1, ["Positive momentum"])
    else (0, [])
  let s7 ← techSignal t.volatility fun v =>
    if rt ≥ 8 ∧ v > 30 then (1, ["High volatility aligned with your risk profile"])
    else if (4 ≤ rt ∧ rt ≤ 7) ∧ (15 ≤ v ∧ v ≤ 30) then
      (1, ["Moderate volatility aligned with your risk profile"])
    else if rt ≤ 3 ∧ v < 15 then (1, ["Low volatility aligned with your risk profile"])
    else (0, [])
  pure (s1.1 + s2.1 + s3.1 + s4.1 + s5.1 + s6.1 + s7.1,
    s1.2 ++ s2.2 ++ s3.2 ++ s4.2 ++ s5.2 ++ s6.2 ++ s7.2)

/-- A candidate after the technical phase (`stock_scores[symbol]`). -/
structure StockScored where
  symbol : String
  name : String
  sector : String
  market_cap_category : String
  score : ℚ
  current_price : PyVal
  pe_ratio : PyVal
  dividend_yield : PyVal
  reasons : List String
deriving DecidableEq, Repr

/-- Technical phase of `recommend_stocks` (lines 379-513): each top-25
fundamental candidate keeps its fundamental score and reasons and adds
the technical signals; a candidate with no technical record, or whose
technical block raises on a parse error, is dropped (`continue` in the
source's `except` handler). -/
def technicalPhase (rt : ℤ) (technical : List (String × TechRecord))
    (fundamental : List (String × FundRecord)) (top : List FundScored) :
    List StockScored :=
  top.filterMap fun st =>
    match List.lookup st.symbol technical with
    | none => none
    | some t =>
        (techAdjust rt t).map fun add =>
          { symbol := st.symbol
            name := st.name
            sector := st.sector
            market_cap_category := st.market_cap_category
            score := st.score + add.1
            current_price := t.current_price
            pe_ratio := ((List.lookup st.symbol fundamental).map
              FundRecord.pe_ratio).getD PyVal.pynone
            dividend_yield := ((List.lookup st.symbol fundamental).map
              FundRecord.dividend_yield).getD PyVal.pynone
            reasons := st.reasons ++ add.2 }

/-- Normalized 1-10 recommendation strength (lines 528-541): linear
normalization with `max_possible_score = 25`, `min_possible_score = -3`,
a 1.15 boost, a clamp to [1,10], and rounding to one decimal. -/
def strengthOf (score : ℚ) : ℚ :=
  round1 (max 1 (min 10 ((score - (-3)) / (25 - (-3)) * 10 * (115 / 100))))

/-- One formatted stock recommendation (the dict built at lines 552-562). -/
structure StockRec where
  symbol : String
  name : String
  sector : String
  current_price : PyVal
  pe_ratio : PyVal
  dividend_yield : PyVal
  recommendation_strength : ℚ
  reason : String
  raw_score : ℚ
deriving DecidableEq, Repr

/-- Formatting of one top stock (lines 527-562): strength from the raw
score, top-3 reasons joined with "; ", market-cap prefix on the sector. -/
def formatStock (st : StockScored) : StockRec :=
  let market_cap_info := if st.market_cap_category ≠ "Unknown"
    then st.market_cap_category ++ " - " else ""
  let sector_info := if st.sector ≠ "Unknown" then st.sector else "Diverse Sector"
  { symbol := st.symbol
    name := st.name
    sector := market_cap_info ++ sector_info
    current_price := st.current_price
    pe_ratio := st.pe_ratio
    dividend_yield := st.dividend_yield
    recommendation_strength := strengthOf st.score
    reason := String.intercalate "; " (st.reasons.take 3)
    raw_score := st.score }

/-- `stock_data` argument of `recommend_stocks`. -/
structure StockData where
  technical : List (String × TechRecord)
  fundamental : List (String × FundRecord)
deriving DecidableEq, Repr

/-- `sentiment_data` argument: per-stock and per-sector sentiment values
(the engine reads only the per-sector `"sentiment"` field). -/
structure SentimentData where
  stock_sentiment : List (String × PyVal)
  sector_sentiment : List (String × PyVal)
deriving DecidableEq, Repr

/-- `recommend_stocks` (lines 141-565): fundamental phase, stable sort,
top 25, technical phase, stable sort, top 8, formatting.  The source's
early `return []` branches coincide with this composition on empty
intermediate lists. -/
def recommend_stocks (p : Profile) (stock_data : StockData)
    (sentiment_data : SentimentData) : List StockRec :=
  let fundScores := fundamentalPhase p.risk_tolerance stock_data.technical
    stock_data.fundamental sentiment_data.sector_sentiment
  let topFund := (sortByDesc FundScored.score fundScores).take 25
  let stockScores := technicalPhase p.risk_tolerance stock_data.technical
    stock_data.fundamental topFund
  ((sortByDesc StockScored.score stockScores).take 8).map formatStock

/-- The text risk-level table shared verbatim by the mutual-fund scorer
(lines 610-618) and the SIP scorer (lines 939-946), with default 5 for
unknown labels. -/
def riskLevelMap (s : String) : ℚ :=
  if s = "Very Low" then 1
  else if s = "Low" then 3
  else if s = "Medium" then 5
  else if s = "High" then 8
  else if s = "Very High" then 10
  else 5

/-- Fund risk in the mutual-fund scorer (lines 600-618): a present
`risk_rating` is parsed as a float with fallback 5 on parse failure;
otherwise `risk_level` is mapped through the text table, where a missing
value defaults to "Medium" and a non-string one to 5. -/
def mfFundRisk (rating level : PyVal) : ℚ :=
  match rating with
  | .pynone =>
      match level with
      | .str s => riskLevelMap s
      | _ => 5
  | v => (pyFloat v).getD 5

/-- Risk-match contribution of the mutual-fund scorer (line 620),
always added to the score. -/
def mfRiskMatch (rt : ℚ) (rating level : PyVal) : ℚ :=
  10 - |rt - mfFundRisk rating level|

/-- Per-fund record (`mutual_fund_data[code]`). -/
structure MFRecord where
  name : PyVal := .pynone
  category : PyVal := .pynone
  nav : PyVal := .pynone
  risk_rating : PyVal := .pynone
  risk_level : PyVal := .pynone
  one_year_return : PyVal := .pynone
  three_year_return : PyVal := .pynone
  five_year_return : PyVal := .pynone
  expense_ratio : PyVal := .pynone
  aum_crores : PyVal := .pynone
deriving DecidableEq, Repr

/-- A fund after scoring (`fund_scores[fund_code]`). -/
structure MFScored where
  code : String
  name : PyVal
  category : PyVal
  nav : PyVal
  one_year_return : PyVal
  three_year_return : PyVal
  five_year_return : PyVal
  expense_ratio : PyVal
  score : ℚ
  reasons : List String
deriving DecidableEq, Repr

/-- Horizon-dependent return signal of the mutual-fund scorer
(lines 627-676).  Each branch's `float()` calls share one `try`, so a
parse failure skips that branch; the short-horizon branch also grants
+3 for `fund_risk < 4`. -/
def mfReturnScore (h : ℤ) (fund_risk : ℚ) (f : MFRecord) : ℚ × List String :=
  if h ≤ 1 then
    let r := if f.one_year_return ≠ PyVal.pynone then
        match pyFloat f.one_year_return with
        | some y => if y > 10 then ((3 : ℚ), ["Strong 1-year return"])
            else if y > 5 then (2, ["Good 1-year return"]) else (0, [])
        | none => (0, [])
      else (0, [])
    if fund_risk < 4 then
      (r.1 + 3, r.2 ++ ["Low risk suitable for short-term investment"])
    else r
  else if h ≤ 3 then
    if f.one_year_return ≠ PyVal.pynone ∧ f.three_year_return ≠ PyVal.pynone then
      match pyFloat f.one_year_return, pyFloat f.three_year_return with
      | some y1, some y3 =>
          let avg := (y1 + y3) / 2
          if avg > 12 then (3, ["Strong avg return over 1-3 years"])
          else if avg > 8 then (2, ["Good avg return over 1-3 years"])
          else (0, [])
      | _, _ => (0, [])
    else (0, [])
  else
    if f.three_year_return ≠ PyVal.pynone ∧ f.five_year_return ≠ PyVal.pynone then
      match pyFloat f.three_year_return, pyFloat f.five_year_return with
      | some y3, some y5 =>
          let avg := (y3 + y5) / 2
          if avg > 12 then (5, ["Excellent avg return over 3-5 years"])
          else if avg > 9 then (3, ["Strong avg return over 3-5 years"])
          else (0, [])
      | _, _ => (0, [])
    else (0, [])

/-- Category-vs-allocation signal of the mutual-fund scorer
(lines 678-693), comparing the fund's category string against the
rounded allocation percentages. -/
def mfCategoryScore (alloc : Allocation) (category : PyVal) : ℚ × List String :=
  if alloc.equity > 60 ∧ category = PyVal.str "Equity" then
    (2, ["Equity fund aligns with your recommended asset allocation"])
  else if alloc.debt > 60 ∧ category = PyVal.str "Debt" then
    (2, ["Debt fund aligns with your recommended asset allocation"])
  else if (40 ≤ alloc.equity ∧ alloc.equity ≤ 60) ∧ category = PyVal.str "Hybrid" then
    (3, ["Hybrid fund perfectly aligns with your balanced allocation"])
  else (0, [])

/-- Expense-ratio signal (lines 696-706). -/
def mfExpenseScore (v : PyVal) : ℚ × List String :=
  if v ≠ PyVal.pynone then
    match pyFloat v with
    | some e => if e < 1 / 2 then (2, ["Very low expense ratio"])
        else if e < 1 then (1, ["Low expense ratio"]) else (0, [])
    | none => (0, [])
  else (0, [])

/-- AUM-size signal (lines 709-716). -/
def mfAumScore (v : PyVal) : ℚ × List String :=
  if v ≠ PyVal.pynone then
    match pyFloat v with
    | some a => if a > 5000 then (1, ["Large fund size"]) else (0, [])
    | none => (0, [])
  else (0, [])

/-- Scoring of one mutual fund (the loop body, lines 595-730). -/
def scoreMutualFund (p : Profile) (code : String) (f : MFRecord) : MFScored :=
  let rt : ℚ := (p.risk_tolerance : ℚ)
  let fund_risk := mfFundRisk f.risk_rating f.risk_level
  let risk_match := mfRiskMatch rt f.risk_rating f.risk_level
  let r1 : ℚ × List String :=
    (risk_match, if risk_match > 7 then ["Risk profile aligns well with your tolerance"] else [])
  let r2 := mfReturnScore p.investment_horizon fund_risk f
  let alloc := determine_asset_allocation p
  let r3 := mfCategoryScore alloc f.category
  let r4 := mfExpenseScore f.expense_ratio
  let r5 := mfAumScore f.aum_crores
  { code := code
    name := f.name
    category := f.category
    nav := f.nav
    one_year_return := f.one_year_return
    three_year_return := f.three_year_return
    five_year_return := f.five_year_return
    expense_ratio := f.expense_ratio
    score := r1.1 + r2.1 + r3.1 + r4.1 + r5.1
    reasons := r1.2 ++ r2.2 ++ r3.2 ++ r4.2 ++ r5.2 }

/-- One formatted mutual-fund recommendation (lines 748-760). -/
structure MFRec where
  code : String
  name : PyVal
  category : PyVal
  nav : PyVal
  expense_ratio : PyVal
  return_1yr : PyVal
  return_3yr : PyVal
  return_5yr : PyVal
  reason : String
deriving DecidableEq, Repr

/-- `recommend_mutual_funds` (lines 567-763): score every fund, stable
sort descending, keep the top 7, join each one's top-2 reasons. -/
def recommend_mutual_funds (p : Profile)
    (mutual_fund_data : List (String × MFRecord)) : List MFRec :=
  let scored := mutual_fund_data.map fun pr => scoreMutualFund p pr.1 pr.2
  ((sortByDesc MFScored.score scored).take 7).map fun f =>
    { code := f.code
      name := f.name
      category := f.category
      nav := f.nav
      expense_ratio := f.expense_ratio
      return_1yr := f.one_year_return
      return_3yr := f.three_year_return
      return_5yr := f.five_year_return
      reason := String.intercalate "; " (f.reasons.take 2) }

/-- Per-commodity record (`commodity_data[name]`). -/
structure CommodityRecord where
  current_price : PyVal := .pynone
  day_change : PyVal := .pynone
  unit : PyVal := .pynone
deriving DecidableEq, Repr

/-- A commodity after scoring (`commodity_scores[name]`): the stored
`current_price` is the raw value coerced to 0 when falsy (lines 860-862)
and `unit` defaults to the empty string. -/
structure CommodityScored where
  name : String
  score : ℚ
  current_price : PyVal
  unit : PyVal
  reasons : List String
deriving DecidableEq, Repr

/-- Scoring of one commodity (the loop body, lines 788-874). -/
def scoreCommodity (rt h : ℤ) (commodity_allocation : ℚ)
    (name : String) (c : CommodityRecord) : CommodityScored :=
  let base : ℚ × List String :=
    if name = "Gold" then
      (5, ["Gold is a traditional hedge against inflation and market volatility"])
    else if name = "Silver" then
      (4, ["Silver offers industrial usage and investment potential"])
    else if strContains name "Oil" then
      (3, ["Energy commodities offer portfolio diversification"])
    else (2, ["adds diversification to your portfolio"])
  let momentum : ℚ × List String :=
    if c.day_change ≠ PyVal.pynone then
      match pyFloat c.day_change with
      | some d =>
          if d > 1 then (2, ["Showing positive momentum"])
          else if d > 0 then (1, ["Slight positive trend"])
          else if d < -1 then (-1, ["Recent downward trend"])
          else (0, [])
      | none => (0, [])
    else (0, [])
  let riskFit : ℚ × List String :=
    if rt ≤ 3 then
      if name = "Gold" then (3, ["Gold aligns well with your conservative risk profile"])
      else (0, [])
    else if rt ≤ 7 then
      if name = "Gold" ∨ name = "Silver" then
        (2, ["Precious metals align with your moderate risk profile"])
      else (0, [])
    else
      if ¬(name = "Gold" ∨ name = "Silver") then
        (2, ["offers growth potential matching your higher risk profile"])
      else (0, [])
  let horizonFit : ℚ × List String :=
    if h ≤ 2 then
      if name = "Gold" then (2, ["Suitable for your shorter investment horizon"])
      else (0, [])
    else if h ≥ 5 then
      if name = "Copper" ∨ name = "Aluminium" ∨ name = "Crude Oil" then
        (2, ["Good for long-term growth with your investment horizon"])
      else (0, [])
    else (0, [])
  let allocFit : ℚ × List String :=
    if commodity_allocation ≤ 5 then
      if name = "Gold" then (1, ["Optimal for small commodity allocation in your portfolio"])
      else (0, [])
    else (0, [])
  { name := name
    score := base.1 + momentum.1 + riskFit.1 + horizonFit.1 + allocFit.1
    current_price := if pyTruthy c.current_price then c.current_price else PyVal.num 0
    unit := if c.unit = PyVal.pynone then PyVal.str "" else c.unit
    reasons := base.2 ++ momentum.2 ++ riskFit.2 ++ horizonFit.2 ++ allocFit.2 }

/-- One formatted commodity recommendation (lines 896-901). -/
structure CommodityRec where
  name : String
  current_price : PyVal
  unit : PyVal
  reason : String
deriving DecidableEq, Repr

/-- `recommend_commodities` (lines 765-904): score, stable sort
descending, top 3, top-2 reasons joined. -/
def recommend_commodities (p : Profile)
    (commodity_data : List (String × CommodityRecord)) : List CommodityRec :=
  let alloc := determine_asset_allocation p
  let scored := commodity_data.map fun pr =>
    scoreCommodity p.risk_tolerance p.investment_horizon alloc.commodities pr.1 pr.2
  ((sortByDesc CommodityScored.score scored).take 3).map fun c =>
    { name := c.name
      current_price := c.current_price
      unit := c.unit
      reason := String.intercalate "; " (c.reasons.take 2) }

/-- Per-SIP record (`sip_data[name]`). -/
structure SipRecord where
  risk_level : PyVal := .pynone
  risk_rating : PyVal := .pynone
  recommended_duration : PyVal := .pynone
  min_investment : PyVal := .pynone
  expected_returns : PyVal := .pynone
  tax_benefits : PyVal := .pynone
deriving DecidableEq, Repr

/-- Risk contribution of the SIP scorer (lines 936-957): a present
`risk_level` wins and is mapped through the text table (non-strings
default to 5); otherwise a present `risk_rating` is used RAW in
`10 - abs(risk_tolerance - sip["risk_rating"])` — a string there raises
a `TypeError` that nothing catches (`none`); with neither field present
no risk contribution is added at all.  The SIP loop has no `try`, so a
`none` aborts the whole `recommend_sip` call. -/
def sipRiskContrib (rt : ℚ) (level rating : PyVal) : Option (ℚ × List String) :=
  if level ≠ PyVal.pynone then
    let v : ℚ := match level with
      | .str s => riskLevelMap s
      | _ => 5
    let risk_match := 10 - |rt - v|
    some (risk_match,
      if risk_match > 7 then ["Risk profile aligns well with your tolerance"] else [])
  else
    match rating with
    | .pynone => some (0, [])
    | .num q =>
        let risk_match := 10 - |rt - q|
        some (risk_match,
          if risk_match > 7 then ["Risk profile aligns well with your tolerance"] else [])
    | .str _ => none

/-- Duration-fit signal of the SIP scorer (lines 960-982): a string
duration containing "-" has its leading integer parsed as the minimum
(parse failure leaves it undetermined), a numeric duration is used
directly, and a string without "-" leaves the minimum undetermined. -/
def sipDurationScore (h : ℤ) (duration : PyVal) : ℚ × List String :=
  if duration = PyVal.pynone then (0, [])
  else
    let min_duration : Option ℚ :=
      match duration with
      | .str s =>
          if strContains s "-" then
            (parseIntStr (((s.splitOn "-").headD ""))).map (fun n => (n : ℚ))
          else none
      | .num q => some q
      | .pynone => none
    match min_duration with
    | some md =>
        if (h : ℚ) ≥ md then
          (3, ["Your investment horizon meets the recommended minimum"])
        else (-2, ["Your investment horizon is less than the recommended minimum"])
    | none => (0, [])

/-- Minimum-investment signal of the SIP scorer (lines 1007-1013): a
numeric minimum is compared against the recommended monthly investment;
a string minimum makes the comparison raise (`none`). -/
def sipMinInvScore (recMonthly : ℚ) (minInv : PyVal) : Option (ℚ × List String) :=
  match minInv with
  | .pynone => some (0, [])
  | .num q =>
      if recMonthly ≥ q * 3 then
        some (1, ["Your monthly investment capacity easily covers the minimum requirement"])
      else if recMonthly < q then
        some (-3, ["Minimum investment exceeds your monthly capacity"])
      else some (0, [])
  | .str _ => none

/-- A SIP after scoring (`sip_scores[sip_name]`, lines 1016-1025). -/
structure SipScored where
  name : String
  risk_level : PyVal
  min_investment : PyVal
  recommended_duration : PyVal
  expected_returns : PyVal
  tax_benefits : PyVal
  score : ℚ
  reasons : List String
deriving DecidableEq, Repr

/-- Scoring of one SIP (the loop body, lines 932-1025). -/
def scoreSip (p : Profile) (recMonthly : ℚ) (alloc : Allocation)
    (name : String) (s : SipRecord) : Option SipScored := do
  let r1 ← sipRiskContrib (p.risk_tolerance : ℚ) s.risk_level s.risk_rating
  let r2 := sipDurationScore p.investment_horizon s.recommended_duration
  let r3 : ℚ × List String :=
    if strContains name "Equity" ∧ alloc.equity > 50 then
      (2, ["Equity allocation aligns with your asset allocation strategy"])
    else (0, [])
  let r4 : ℚ × List String :=
    if strContains name "Balanced" ∧ (30 ≤ alloc.equity ∧ alloc.equity ≤ 70) then
      (3, ["Balanced fund perfectly suits your moderate asset allocation"])
    else (0, [])
  let r5 : ℚ × List String :=
    if strContains name "Debt" ∧ alloc.debt > 40 then
      (2, ["Debt allocation aligns with your asset allocation strategy"])
    else (0, [])
  let r6 : ℚ × List String :=
    if strContains name "ELSS" ∨ strContains name "Tax" then
      if p.risk_tolerance ≥ 6 then (2, ["ELSS provides tax benefits under Section 80C"])
      else (-1, ["ELSS may be too risky for your profile despite tax benefits"])
    else (0, [])
  let r7 ← sipMinInvScore recMonthly s.min_investment
  pure
    { name := name
      risk_level := s.risk_level
      min_investment := s.min_investment
      recommended_duration := s.recommended_duration
      expected_returns := s.expected_returns
      tax_benefits := if s.tax_benefits = PyVal.pynone then PyVal.str "No" else s.tax_benefits
      score := r1.1 + r2.1 + r3.1 + r4.1 + r5.1 + r6.1 + r7.1
      reasons := r1.2 ++ r2.2 ++ r3.2 ++ r4.2 ++ r5.2 ++ r6.2 ++ r7.2 }

/-- One formatted SIP recommendation (lines 1051-1059). -/
structure SipRec where
  name : String
  risk_level : PyVal
  monthly_amount : ℚ
  min_investment : PyVal
  expected_returns : PyVal
  tax_benefits : PyVal
  reason : String
deriving DecidableEq, Repr

/-- Left-to-right option-valued map, modelling a Python loop whose body
may raise: the first raising element aborts the whole loop. -/
def optionMapList {α β : Type} (f : α → Option β) : List α → Option (List β)
  | [] => some []
  | x :: xs => do
      let y ← f x
      let ys ← optionMapList f xs
      pure (y :: ys)

/-- Monthly-amount floor of the SIP formatting loop (lines 1044-1045):
a truthy numeric minimum replaces a smaller suggestion; a truthy
string minimum would make the `<` comparison raise (unreachable after a
successful scoring pass, but modelled). -/
def sipMonthlyAmount (minInv : PyVal) (suggested : ℚ) : Option ℚ :=
  match minInv with
  | .pynone => some suggested
  | .num q => some (if q ≠ 0 ∧ suggested < q then q else suggested)
  | .str s => if s = "" then some suggested else none

/-- `recommend_sip` (lines 906-1062): score every SIP (`none` models an
uncaught exception escaping the function), stable sort descending, top
5, then split the recommended monthly investment across the winners in
proportion to score (equal 20% shares when the total is not positive),
rounded to the nearest 100 and floored at each SIP's minimum. -/
def recommend_sip (p : Profile) (sip_data : List (String × SipRecord)) :
    Option (List SipRec) := do
  let capacity := calculate_investment_capacity p
  let recMonthly := capacity.recommended_monthly_investment
  let alloc := determine_asset_allocation p
  let scored ← optionMapList (fun pr => scoreSip p recMonthly alloc pr.1 pr.2) sip_data
  let top := (sortByDesc SipScored.score scored).take 5
  let total : ℚ := if top.isEmpty then 1 else (top.map SipScored.score).sum
  optionMapList
    (fun s => do
      let ratio : ℚ := if total > 0 then s.score / total else 1 / 5
      let suggested := round100 (recMonthly * ratio)
      let monthly ← sipMonthlyAmount s.min_investment suggested
      pure
        { name := s.name
          risk_level := s.risk_level
          monthly_amount := monthly
          min_investment := s.min_investment
          expected_returns := s.expected_returns
          tax_benefits := s.tax_benefits
          reason := String.intercalate "; " (s.reasons.take 2) })
    top

/-- The worked example profile of the spec (monthly income 50000,
expenses 30000, savings 100000, investments 200000, debt 50000,
horizon 5 years, risk tolerance 5). -/
def exProfile : Profile :=
  { monthly_income := 50000
    monthly_expense := 30000
    current_savings := 100000
    existing_investments := 200000
    current_debt := 50000
    investment_horizon := 5
    risk_tolerance := 5 }

/-- The worked example fundamental record of the spec: PE 12, ROE 22,
D/E 0.25, EPS 60, dividend yield 5, profit growth 35; no industry PE
and no market cap. -/
def exFund : FundRecord :=
  { pe_ratio := .num 12
    roe := .num 22
    debt_to_equity := .num (1 / 4)
    eps := .num 60
    dividend_yield := .num 5
    profit_growth := .num 35 }

/-- A technical record whose fields all parse: price 11% above the
50-day moving average and RSI 50. -/
def exTechGood : TechRecord :=
  { price_to_ma50 := .num (111 / 100)
    rsi := .num 50 }

/-- The same technical record with a present but non-numeric `rsi`. -/
def exTechBad : TechRecord :=
  { price_to_ma50 := .num (111 / 100)
    rsi := .str "n/a" }

/-- Stock data with one symbol whose fields all parse. -/
def exStockDataGood : StockData := ⟨[("A", exTechGood)], [("A", exFund)]⟩

/-- Stock data with one symbol carrying a non-numeric `rsi`. -/
def exStockDataBad : StockData := ⟨[("A", exTechBad)], [("A", exFund)]⟩

/-- Empty sentiment data. -/
def exSentiment : SentimentData := ⟨[], []⟩

/-- The recommendation produced for `exStockDataGood`: fundamental score
26 plus 3 (MA50) plus 2 (RSI) gives raw score 31, whose normalized
strength clamps to 10. -/
def exStockRec : StockRec :=
  { symbol := "A"
    name := "A"
    sector := "Diverse Sector"
    current_price := .pynone
    pe_ratio := .num 12
    dividend_yield := .num 5
    recommendation_strength := 10
    reason := String.intercalate "; "
      ["Attractive P/E ratio", "Excellent ROE", "Exceptionally low debt-to-equity ratio"]
    raw_score := 31 }

/-- A fundamental-phase candidate with symbol "A", used to exercise the
technical phase in isolation. -/
def exFundScoredA : FundScored :=
  { symbol := "A"
    name := "A"
    sector := "Unknown"
    market_cap_category := "Unknown"
    score := 26
    reasons := [] }

/-- Rounding to two decimals moves a rational by at most 1/200. -/
theorem abs_round2_sub_le (x : ℚ) : |round2 x - x| ≤ 1 / 200 := by
  have h := abs_sub_round (x * 100)
  rw [abs_le] at h ⊢
  unfold round2
  constructor <;> [nlinarith [h.1, h.2]; nlinarith [h.1, h.2]]

/-- The three raw allocations always total exactly 100, because debt is
defined as `100 - equity - 5` on every path. -/
theorem rawTotalEq100 (p : Profile) : equityRaw p + debtRaw p + commodityRaw = 100 := by
  unfold debtRaw commodityRaw
  ring

/-- Dividing by the raw total and scaling by 100 is the identity. -/
theorem renormalizeId (p : Profile) (x : ℚ) :
    x / (equityRaw p + debtRaw p + commodityRaw) * 100 = x := by
  rw [rawTotalEq100]
  norm_num

/-- Claim C1: for every profile with integer risk tolerance in [1,10] and
integer non-negative horizon, the rounded equity, debt and commodity
percentages returned by `determine_asset_allocation` sum to 100 within a
tolerance of 0.01. -/
theorem alloc_sum_within_tolerance (p : Profile)
    (h1 : 1 ≤ p.risk_tolerance) (h2 : p.risk_tolerance ≤ 10)
    (h3 : 0 ≤ p.investment_horizon) :
    |(determine_asset_allocation p).equity + (determine_asset_allocation p).debt +
      (determine_asset_allocation p).commodities - 100| ≤ 1 / 100 := by
  have hc : round2 commodityRaw = 5 := by norm_num [round2, commodityRaw]
  have he := abs_round2_sub_le (equityRaw p)
  have hd := abs_round2_sub_le (debtRaw p)
  have hsum : equityRaw p + debtRaw p = 95 := by unfold debtRaw; ring
  simp only [determine_asset_allocation, renormalizeId, hc]
  rw [abs_le] at he hd ⊢
  constructor <;> [linarith [he.1, hd.1]; linarith [he.2, hd.2]]

/-- Witness for C1 at the spec's example profile. -/
theorem alloc_sum_within_tolerance_witness :
    |(determine_asset_allocation exProfile).equity + (determine_asset_allocation exProfile).debt +
      (determine_asset_allocation exProfile).commodities - 100| ≤ 1 / 100 :=
  alloc_sum_within_tolerance exProfile (by decide) (by decide) (by decide)

/-- Claim C10: the pre-rounding allocations already total exactly 100 for
every profile, so the renormalization is the identity and the returned
commodities percentage is exactly 5. -/
theorem alloc_prenorm_exact (p : Profile) (h3 : 0 ≤ p.investment_horizon) :
    equityRaw p + debtRaw p + commodityRaw = 100 ∧
      (determine_asset_allocation p).commodities = 5 := by
  refine ⟨rawTotalEq100 p, ?_⟩
  simp only [determine_asset_allocation, renormalizeId]
  norm_num [round2, commodityRaw]

/-- Witness for C10 at the spec's example profile. -/
theorem alloc_prenorm_exact_witness :
    equityRaw exProfile + debtRaw exProfile + commodityRaw = 100 ∧
      (determine_asset_allocation exProfile).commodities = 5 :=
  alloc_prenorm_exact exProfile (by decide)

/-- Claim C5: `calculate_investment_capacity` on the spec's example
profile returns surplus 20000, debt-to-income ratio 1 (taking the
greater-than-0.5 branch), recommended monthly investment 6000 and debt
payment recommendation 14000. -/
theorem capacity_example :
    (calculate_investment_capacity exProfile).monthly_surplus = 20000 ∧
      (calculate_investment_capacity exProfile).debt_to_income_ratio = some 1 ∧
      dtiGtHalf (calculate_investment_capacity exProfile).debt_to_income_ratio = true ∧
      (calculate_investment_capacity exProfile).recommended_monthly_investment = 6000 ∧
      (calculate_investment_capacity exProfile).debt_payment_recommendation = 14000 := by
  norm_num [calculate_investment_capacity, dtiGtHalf, exProfile]

/-- Counterexample to claim C2: a numeric risk tolerance of 15 passes
through the normalization in `generate_stock_recommendations` unchanged,
landing outside [1,10] — that path never clamps numeric input. -/
theorem risk_norm_not_clamped :
    riskValueOfInput (RiskInput.num 15) = 15 ∧
      ¬ riskValueOfInput (RiskInput.num 15) ≤ 10 := by
  constructor <;> decide

/-- Claim C2 as amended: textual risk strings always normalize into
[1,10] (the keyword table only produces 3, 5 or 8); a numeric risk value
passes through `generate_stock_recommendations` unchanged with no clamp;
the clamp to [1,10] exists only on the interactive
`get_user_financial_profile` path, where it does map every integer into
[1,10]. -/
theorem risk_norm_amended :
    (∀ s : String, 1 ≤ riskValueOfInput (RiskInput.txt s) ∧
      riskValueOfInput (RiskInput.txt s) ≤ 10) ∧
    (∀ n : ℤ, riskValueOfInput (RiskInput.num n) = n) ∧
    (∀ n : ℤ, 1 ≤ clampRiskProfile n ∧ clampRiskProfile n ≤ 10) := by
  refine ⟨fun s => ?_, fun n => rfl, fun n => ?_⟩
  · have h : riskValueOfInput (RiskInput.txt s) = 3 ∨
        riskValueOfInput (RiskInput.txt s) = 5 ∨
        riskValueOfInput (RiskInput.txt s) = 8 := by
      simp only [riskValueOfInput]
      split
      · exact Or.inl rfl
      · split
        · exact Or.inr (Or.inl rfl)
        · split
          · exact Or.inr (Or.inr rfl)
          · exact Or.inr (Or.inl rfl)
    rcases h with h | h | h <;> rw [h] <;> exact ⟨by omega, by omega⟩
  · unfold clampRiskProfile
    split <;> omega

/-- Claim C6: the spec's example fundamental record scores 26 for any
risk tolerance, decomposed as PE 4, ROE 5, D/E 4, EPS 4, dividend 3,
profit growth 5, complete-data bonus 1, with no industry-PE, market-cap
or sector-sentiment contribution. -/
theorem fundamental_example_score (rt : ℤ) :
    (scoreFundamental rt [] "A" exFund).score = 26 ∧
      (peScore exFund.pe_ratio).1 = 4 ∧
      (roeScore exFund.roe).1 = 5 ∧
      (deScore exFund.debt_to_equity).1 = 4 ∧
      (epsScore exFund.eps).1 = 4 ∧
      (divYieldScore exFund.dividend_yield).1 = 3 ∧
      (profitGrowthScore exFund.profit_growth).1 = 5 ∧
      (completeDataScore exFund).1 = 1 ∧
      (industryPeScore exFund.pe_ratio exFund.industry_pe).1 = 0 ∧
      (marketCapScore exFund.market_cap rt).1 = 0 ∧
      (sectorScore ((exFund.sector).getD "Unknown") []).1 = 0 := by
  norm_num [scoreFundamental, peScore, industryPeScore, roeScore, deScore, epsScore,
    divYieldScore, profitGrowthScore, marketCapScore, sectorScore, completeDataScore,
    fieldPresent, pyFloat, exFund, List.lookup]
  simp
  norm_num

/-- Rounding to one decimal keeps a value of [1,10] inside [1,10]. -/
theorem round1_mem_Icc {y : ℚ} (h1 : 1 ≤ y) (h2 : y ≤ 10) :
    1 ≤ round1 y ∧ round1 y ≤ 10 := by
  unfold round1
  rw [round_eq]
  have l1 : (10 : ℤ) ≤ ⌊y * 10 + 1 / 2⌋ := by
    rw [Int.le_floor]
    push_cast
    linarith
  have l2 : ⌊y * 10 + 1 / 2⌋ ≤ 100 := by
    have hf := Int.floor_le (y * 10 + 1 / 2)
    have h3 : ((⌊y * 10 + 1 / 2⌋ : ℤ) : ℚ) < 101 := by linarith
    have h4 : ⌊y * 10 + 1 / 2⌋ < 101 := by exact_mod_cast h3
    omega
  have c1 : ((10 : ℤ) : ℚ) ≤ ((⌊y * 10 + 1 / 2⌋ : ℤ) : ℚ) := by exact_mod_cast l1
  have c2 : ((⌊y * 10 + 1 / 2⌋ : ℤ) : ℚ) ≤ ((100 : ℤ) : ℚ) := by exact_mod_cast l2
  constructor
  · push_cast at c1 ⊢
    linarith
  · push_cast at c2 ⊢
    linarith

/-- Claim C3: every recommendation returned by `recommend_stocks` has
`recommendation_strength` equal to the normalized, boosted, clamped and
rounded transform of its raw score, and that strength lies in [1,10]. -/
theorem stock_strength_formula (p : Profile) (sd : StockData) (sent : SentimentData)
    (rec : StockRec) (h : rec ∈ recommend_stocks p sd sent) :
    rec.recommendation_strength =
      round1 (max 1 (min 10 ((rec.raw_score - (-3)) / (25 - (-3)) * 10 * (115 / 100)))) ∧
    1 ≤ rec.recommendation_strength ∧ rec.recommendation_strength ≤ 10 := by
  unfold recommend_stocks at h
  rw [List.mem_map] at h
  obtain ⟨st, hst, rfl⟩ := h
  refine ⟨rfl, ?_⟩
  show 1 ≤ strengthOf st.score ∧ strengthOf st.score ≤ 10
  unfold strengthOf
  exact round1_mem_Icc (le_max_left _ _)
    (max_le (by norm_num) (min_le_left _ _))

/-- Numbers and `None` are distinct Python values. -/
@[simp] theorem num_ne_pynone (q : ℚ) : ¬ PyVal.num q = PyVal.pynone := by
  simp

/-- Numbers and strings are distinct Python values. -/
@[simp] theorem num_ne_str (q : ℚ) (s : String) : ¬ PyVal.num q = PyVal.str s := by
  simp

/-- Strings and `None` are distinct Python values. -/
@[simp] theorem str_ne_pynone (s : String) : ¬ PyVal.str s = PyVal.pynone := by
  simp

/-- Evaluation of `recommend_stocks` on the one-stock example input. -/
theorem recommend_stocks_example_eval :
    recommend_stocks exProfile exStockDataGood exSentiment = [exStockRec] := by
  norm_num [recommend_stocks, fundamentalPhase, technicalPhase, scoreFundamental,
    peScore, industryPeScore, roeScore, deScore, epsScore, divYieldScore,
    profitGrowthScore, marketCapScore, sectorScore, completeDataScore, fieldPresent,
    pyFloat, techAdjust, techSignal, macdBlock, pyGtZero, pyLtZero,
    sortByDesc, insertDescBy, formatStock, strengthOf, round1, round_eq,
    exProfile, exStockDataGood, exSentiment, exFund, exTechGood, exStockRec,
    List.lookup, min_def, max_def, Option.bind, List.filterMap_cons, List.filterMap_nil,
    List.foldr_cons, List.foldr_nil, num_ne_pynone, num_ne_str, str_ne_pynone,
    PyVal.str.injEq]

/-- Witness for C3 at the one-stock example: its recommendation carries
strength 10 from raw score 31. -/
theorem stock_strength_formula_witness :
    exStockRec.recommendation_strength =
      round1 (max 1 (min 10 ((exStockRec.raw_score - (-3)) / (25 - (-3)) * 10 * (115 / 100)))) ∧
    1 ≤ exStockRec.recommendation_strength ∧ exStockRec.recommendation_strength ≤ 10 :=
  stock_strength_formula exProfile exStockDataGood exSentiment exStockRec
    (by rw [recommend_stocks_example_eval]; exact List.mem_singleton_self _)

/-- The example bad string does not parse as a float. -/
@[simp] theorem parseFloatStr_na : parseFloatStr "n/a" = none := by decide

/-- Counterexample to claim C4: with the example data, symbol "A" tops
the fundamental phase (its record scores 26), yet because its `rsi`
field is the non-numeric string "n/a" the technical phase drops it
entirely and `recommend_stocks` returns no recommendation at all. -/
theorem stock_dropped_on_bad_rsi :
    ((sortByDesc FundScored.score (fundamentalPhase exProfile.risk_tolerance
        exStockDataBad.technical exStockDataBad.fundamental
        exSentiment.sector_sentiment)).take 25).map FundScored.symbol = ["A"] ∧
    recommend_stocks exProfile exStockDataBad exSentiment = [] := by
  constructor
  · norm_num [fundamentalPhase, scoreFundamental, sortByDesc, insertDescBy,
      exProfile, exStockDataBad, exSentiment, exFund, exTechBad, List.lookup,
      List.filterMap_cons, List.filterMap_nil, List.foldr_cons, List.foldr_nil]
  · norm_num [recommend_stocks, fundamentalPhase, technicalPhase, scoreFundamental,
      peScore, industryPeScore, roeScore, deScore, epsScore, divYieldScore,
      profitGrowthScore, marketCapScore, sectorScore, completeDataScore, fieldPresent,
      pyFloat, techAdjust, techSignal, macdBlock, pyGtZero, pyLtZero,
      sortByDesc, insertDescBy, formatStock,
      exProfile, exStockDataBad, exSentiment, exFund, exTechBad,
      List.lookup, Option.bind, List.filterMap_cons, List.filterMap_nil,
      List.foldr_cons, List.foldr_nil]

/-- Claim C4 as amended: in the fundamental phase a parse error can only
skip a signal — every symbol with both a technical and a fundamental
record appears in `fundamental_scores`, whatever its field values; but in
the technical phase (whose signals share one `try` with a `continue`
handler) a present non-numeric field aborts the candidate, which is
dropped from the ranking entirely. -/
theorem parse_error_drop_behavior :
    (∀ (rt : ℤ) (tech : List (String × TechRecord))
      (fund : List (String × FundRecord)) (ss : List (String × PyVal)),
      (fundamentalPhase rt tech fund ss).map FundScored.symbol =
        (tech.map Prod.fst).filter (fun s => (List.lookup s fund).isSome)) ∧
    (∀ (rt : ℤ) (tech : List (String × TechRecord))
      (fund : List (String × FundRecord)) (st : FundScored) (t : TechRecord),
      List.lookup st.symbol tech = some t → techAdjust rt t = none →
      technicalPhase rt tech fund [st] = []) := by
  constructor
  · intro rt tech fund ss
    induction tech with
    | nil => rfl
    | cons hd tl ih =>
      cases h : List.lookup hd.1 fund with
      | none =>
          simp [fundamentalPhase, List.filterMap_cons, h, List.filter_cons] at ih ⊢
          exact ih
      | some f =>
          simp [fundamentalPhase, List.filterMap_cons, h, List.filter_cons,
            scoreFundamental] at ih ⊢
          exact ih
  · intro rt tech fund st t h1 h2
    simp [technicalPhase, h1, h2]

/-- Witness for the amended C4: the example candidate is dropped by the
technical phase when its `rsi` is the non-numeric string "n/a". -/
theorem parse_error_drop_witness :
    technicalPhase 5 [("A", exTechBad)] [("A", exFund)] [exFundScoredA] = [] :=
  parse_error_drop_behavior.2 5 [("A", exTechBad)] [("A", exFund)] exFundScoredA exTechBad
    (by norm_num [exFundScoredA, List.lookup])
    (by norm_num [techAdjust, techSignal, macdBlock, pyFloat, exTechBad, Option.bind])

/-- A successful `optionMapList` pass preserves the list length. -/
theorem optionMapList_length {α β : Type} (f : α → Option β) :
    ∀ (l : List α) (res : List β), optionMapList f l = some res → res.length = l.length := by
  intro l
  induction l with
  | nil =>
      intro res h
      simp [optionMapList] at h
      simp [← h]
  | cons x xs ih =>
      intro res h
      simp only [optionMapList, bind, Option.bind_eq_some, pure, Option.some.injEq] at h
      obtain ⟨y, hy, ys, hys, hres⟩ := h
      subst hres
      simp [ih ys hys]

/-- Claim C7: for every input, `recommend_stocks` returns at most 8
recommendations, `recommend_mutual_funds` at most 7,
`recommend_commodities` at most 3, and a successful `recommend_sip` call
at most 5. -/
theorem scorer_output_bounds (p : Profile) (sd : StockData) (sent : SentimentData)
    (mf : List (String × MFRecord)) (cd : List (String × CommodityRecord))
    (sp : List (String × SipRecord)) :
    (recommend_stocks p sd sent).length ≤ 8 ∧
    (recommend_mutual_funds p mf).length ≤ 7 ∧
    (recommend_commodities p cd).length ≤ 3 ∧
    (recommend_sip p sp).elim True (fun l => l.length ≤ 5) := by
  refine ⟨?_, ?_, ?_, ?_⟩
  · simp only [recommend_stocks, List.length_map]
    exact List.length_take_le _ _
  · simp only [recommend_mutual_funds, List.length_map]
    exact List.length_take_le _ _
  · simp only [recommend_commodities, List.length_map]
    exact List.length_take_le _ _
  · cases h : recommend_sip p sp with
    | none => simp
    | some l =>
        simp only [Option.elim]
        simp only [recommend_sip, bind, Option.bind_eq_some] at h
        obtain ⟨scored, hsc, hfmt⟩ := h
        have hlen := optionMapList_length _ _ _ hfmt
        rw [hlen]
        exact List.length_take_le _ _

/-- Counterexample to claim C8: on a candidate record with neither a
`risk_rating` nor a `risk_level`, the mutual-fund scorer adds the
default-Medium risk match 10 − |5 − 5| = 10, while the SIP scorer adds
no risk contribution at all. -/
theorem risk_match_scorers_differ :
    mfRiskMatch 5 PyVal.pynone PyVal.pynone = 10 ∧
      sipRiskContrib 5 PyVal.pynone PyVal.pynone = some (0, []) ∧
      (0 : ℚ) ≠ 10 := by
  refine ⟨?_, ?_, by norm_num⟩
  · norm_num [mfRiskMatch, mfFundRisk]
  · rfl

/-- Claim C8 as amended: the SIP and mutual-fund risk-match computations
agree — both adding 10 − |user risk − mapped risk_level| — whenever the
record carries a text `risk_level` and no `risk_rating`; with neither
field present the mutual-fund scorer adds 10 − |user risk − 5| while the
SIP scorer adds nothing (and their field priorities differ when both are
present). -/
theorem risk_match_equiv_on_text_level (rt : ℚ) (s : String) :
    (sipRiskContrib rt (PyVal.str s) PyVal.pynone).map Prod.fst =
      some (mfRiskMatch rt PyVal.pynone (PyVal.str s)) ∧
    mfRiskMatch rt PyVal.pynone (PyVal.str s) = 10 - |rt - riskLevelMap s| := by
  exact ⟨rfl, rfl⟩

/-- Claim C9: each scorer is a deterministic function of its arguments —
two calls on identical profile, market-data and sentiment inputs return
identical outputs.  (The embedding is pure by construction, faithfully:
the source functions build fresh dicts, copy reason lists before
extending them, and never write to their input maps or module state.) -/
theorem scorers_deterministic (p₁ p₂ : Profile) (sd₁ sd₂ : StockData)
    (se₁ se₂ : SentimentData) (mf₁ mf₂ : List (String × MFRecord))
    (cd₁ cd₂ : List (String × CommodityRecord)) (sp₁ sp₂ : List (String × SipRecord))
    (hp : p₁ = p₂) (hsd : sd₁ = sd₂) (hse : se₁ = se₂) (hmf : mf₁ = mf₂)
    (hcd : cd₁ = cd₂) (hsp : sp₁ = sp₂) :
    recommend_stocks p₁ sd₁ se₁ = recommend_stocks p₂ sd₂ se₂ ∧
    recommend_mutual_funds p₁ mf₁ = recommend_mutual_funds p₂ mf₂ ∧
    recommend_commodities p₁ cd₁ = recommend_commodities p₂ cd₂ ∧
    recommend_sip p₁ sp₁ = recommend_sip p₂ sp₂ := by
  subst hp hsd hse hmf hcd hsp
  exact ⟨rfl, rfl, rfl, rfl⟩

/-- Witness for C9 at the example inputs. -/
theorem scorers_deterministic_witness :
    recommend_stocks exProfile exStockDataGood exSentiment =
      recommend_stocks exProfile exStockDataGood exSentiment ∧
    recommend_mutual_funds exProfile [] = recommend_mutual_funds exProfile [] ∧
    recommend_commodities exProfile [] = recommend_commodities exProfile [] ∧
    recommend_sip exProfile [] = recommend_sip exProfile [] :=
  scorers_deterministic exProfile exProfile exStockDataGood exStockDataGood
    exSentiment exSentiment [] [] [] [] [] [] rfl rfl rfl rfl rfl rfl
